import Mathlib

/-!
Verification of the allocation subsystem of `raw-rs` (`src/alloc/plain.rs`,
`src/alloc/lazy.rs`, `src/alloc/mod.rs`).

Shallow embedding conventions:

* The platform word `uint` is modelled by `Nat` together with an explicit
  word width `w`: `uintMax w = 2 ^ w - 1` is `uint::MAX`, `wrap w` is the
  wrap-around of an unchecked machine multiplication, `checked_mul` is
  `Int::checked_mul`, and `saturated_mul` is the source expression
  `size.checked_mul(len).unwrap_or(uint::MAX)`.
* A generic element type `T` is represented by the two numbers the code
  extracts from it: `size` (`size_of::<T>()`) and `align`
  (`min_align_of::<T>()`).
* The external raw allocator (`std::rt::heap`) is an oracle: a `Heap`
  structure of response functions.  Pointers are addresses (`Nat`), `0` is
  the null pointer, and `EMPTY` is the fixed non-null sentinel
  `heap::EMPTY` (address 1).
* Every operation returns its result paired with the list of calls it made
  to the raw allocator (a `List HeapCall`), so that "what the underlying
  allocator receives" is observable in the embedding.
* `Result<(), ()>` is the two-value type `RawResult`; `oom()` (a process
  abort) makes a lazy-mode operation return `none` instead of a pointer.
* `debug_assert!` lines compile to nothing in release builds; they appear
  here only as preconditions of theorems, never as runtime checks.
-/

namespace Raw

/-- The fixed non-null sentinel `heap::EMPTY` address used for zero-sized
types (address 1 in the Rust runtime). -/
def EMPTY : Nat := 1

/-- Value of `uint::MAX` on a platform whose `uint` has `w` bits. -/
def uintMax (w : Nat) : Nat := 2 ^ w - 1

/-- Wrap-around of an unchecked `uint` computation on a `w`-bit platform. -/
def wrap (w n : Nat) : Nat := n % 2 ^ w

/-- Checked multiplication `a.checked_mul(b)`: `none` exactly when the product overflows `uint`. -/
def checked_mul (w a b : Nat) : Option Nat :=
  if a * b ≤ uintMax w then some (a * b) else none

/-- The source expression `size.checked_mul(len).unwrap_or(uint::MAX)`. -/
def saturated_mul (w a b : Nat) : Nat :=
  (checked_mul w a b).getD (uintMax w)

/-- The raw allocator capability consumed from `std::rt::heap`, as an
oracle of response functions.  `allocate size align` returns an address
(0 = null = failure); `reallocate ptr old_size size align` likewise;
`reallocate_inplace ptr old_size size align` returns the resulting usable
size of the block; `usable_size size align` reports the usable size a
fresh allocation of `size` bytes would occupy. -/
structure Heap where
  allocate : Nat → Nat → Nat
  reallocate : Nat → Nat → Nat → Nat → Nat
  reallocate_inplace : Nat → Nat → Nat → Nat → Nat
  usable_size : Nat → Nat → Nat

/-- One call made to the raw allocator, with the exact arguments passed. -/
inductive HeapCall where
  | allocate (size align : Nat)
  | reallocate (ptr old_size size align : Nat)
  | reallocate_inplace (ptr old_size size align : Nat)
  | deallocate (ptr size align : Nat)
deriving DecidableEq, Repr

/-- The Rust `Result<(), ()>` returned by the in-place operations. -/
inductive RawResult where
  | ok
  | err
deriving DecidableEq, Repr

namespace plain

/-- Embedding of `plain::alloc::<T>()` from `src/alloc/plain.rs`. -/
def alloc (w : Nat) (h : Heap) (size align : Nat) : Nat × List HeapCall :=
  if size = 0 then
    (EMPTY, [])
  else
    (h.allocate size align, [HeapCall.allocate size align])

/-- Embedding of `plain::alloc_array::<T>(len)` from `src/alloc/plain.rs`. -/
def alloc_array (w : Nat) (h : Heap) (size align len : Nat) :
    Nat × List HeapCall :=
  if size = 0 then
    (EMPTY, [])
  else
    let desired_size := saturated_mul w size len
    (h.allocate desired_size align, [HeapCall.allocate desired_size align])

/-- Embedding of `plain::realloc_array::<T>(ptr, old_len, len)` from
`src/alloc/plain.rs`.  The old byte size `size * old_len` is an unchecked
machine multiplication, hence `wrap`. -/
def realloc_array (w : Nat) (h : Heap) (size align ptr old_len len : Nat) :
    Nat × List HeapCall :=
  if size = 0 then
    (ptr, [])
  else
    let desired_size := saturated_mul w size len
    let old_size := wrap w (size * old_len)
    (h.reallocate ptr old_size desired_size align,
     [HeapCall.reallocate ptr old_size desired_size align])

/-- Embedding of `plain::try_grow_inplace::<T>(ptr, old_len, len)` from
`src/alloc/plain.rs`. -/
def try_grow_inplace (w : Nat) (h : Heap) (size align ptr old_len len : Nat) :
    RawResult × List HeapCall :=
  if size = 0 then
    (RawResult.ok, [])
  else
    let desired_size := saturated_mul w size len
    let old_size := wrap w (size * old_len)
    let result_size := h.reallocate_inplace ptr old_size desired_size align
    ((if desired_size ≤ result_size then RawResult.ok else RawResult.err),
     [HeapCall.reallocate_inplace ptr old_size desired_size align])

/-- Embedding of `plain::try_shrink_inplace::<T>(ptr, old_len, len)` from
`src/alloc/plain.rs`.  Both multiplications are unchecked. -/
def try_shrink_inplace (w : Nat) (h : Heap) (size align ptr old_len len : Nat) :
    RawResult × List HeapCall :=
  if size = 0 then
    (RawResult.ok, [])
  else
    let desired_size := wrap w (size * len)
    let old_size := wrap w (size * old_len)
    let result_size := h.reallocate_inplace ptr old_size desired_size align
    ((if result_size = h.usable_size desired_size align then RawResult.ok
      else RawResult.err),
     [HeapCall.reallocate_inplace ptr old_size desired_size align])

/-- Embedding of `plain::dealloc::<T>(ptr)` from `src/alloc/plain.rs`; its only
observable effect is the call it makes to the raw allocator. -/
def dealloc (w : Nat) (h : Heap) (size align ptr : Nat) : List HeapCall :=
  if size = 0 then [] else [HeapCall.deallocate ptr size align]

/-- Embedding of `plain::dealloc_array::<T>(ptr, len)` from `src/alloc/plain.rs`; the
byte size `size * len` is an unchecked machine multiplication. -/
def dealloc_array (w : Nat) (h : Heap) (size align ptr len : Nat) :
    List HeapCall :=
  if size = 0 then [] else [HeapCall.deallocate ptr (wrap w (size * len)) align]

end plain

namespace lazy

/-- The pattern `let ptr = plain::...; if ptr.is_null() { oom() } ptr` of
`src/alloc/lazy.rs`: `oom()` (`src/alloc/mod.rs`) aborts the process,
modelled as `none`. -/
def checkOom (r : Nat × List HeapCall) : Option Nat × List HeapCall :=
  if r.1 = 0 then (none, r.2) else (some r.1, r.2)

/-- Embedding of `lazy::alloc::<T>()` from `src/alloc/lazy.rs`. -/
def alloc (w : Nat) (h : Heap) (size align : Nat) :
    Option Nat × List HeapCall :=
  checkOom (plain.alloc w h size align)

/-- Embedding of `lazy::alloc_array::<T>(len)` from `src/alloc/lazy.rs`. -/
def alloc_array (w : Nat) (h : Heap) (size align len : Nat) :
    Option Nat × List HeapCall :=
  checkOom (plain.alloc_array w h size align len)

/-- Embedding of `lazy::realloc_array::<T>(ptr, old_len, len)` from `src/alloc/lazy.rs`. -/
def realloc_array (w : Nat) (h : Heap) (size align ptr old_len len : Nat) :
    Option Nat × List HeapCall :=
  checkOom (plain.realloc_array w h size align ptr old_len len)

/-- Embedding of `lazy::try_grow_inplace::<T>(ptr, old_len, len)` from
`src/alloc/lazy.rs`: a pure delegation to the plain-mode function. -/
def try_grow_inplace (w : Nat) (h : Heap) (size align ptr old_len len : Nat) :
    RawResult × List HeapCall :=
  plain.try_grow_inplace w h size align ptr old_len len

/-- Embedding of `lazy::try_shrink_inplace::<T>(ptr, old_len, len)` from
`src/alloc/lazy.rs`: a pure delegation to the plain-mode function. -/
def try_shrink_inplace (w : Nat) (h : Heap) (size align ptr old_len len : Nat) :
    RawResult × List HeapCall :=
  plain.try_shrink_inplace w h size align ptr old_len len

/-- Embedding of `lazy::dealloc::<T>(ptr)` from `src/alloc/lazy.rs`. -/
def dealloc (w : Nat) (h : Heap) (size align ptr : Nat) : List HeapCall :=
  plain.dealloc w h size align ptr

/-- Embedding of `lazy::dealloc_array::<T>(ptr, len)` from `src/alloc/lazy.rs`. -/
def dealloc_array (w : Nat) (h : Heap) (size align ptr len : Nat) :
    List HeapCall :=
  plain.dealloc_array w h size align ptr len

end lazy

/-- A concrete well-behaved raw allocator used to instantiate theorems:
never fails, grants in-place requests exactly, reports usable sizes
verbatim. -/
def testHeap : Heap where
  allocate := fun size _ => size + 100
  reallocate := fun ptr _ size _ => ptr + size
  reallocate_inplace := fun _ _ size _ => size
  usable_size := fun size _ => size

/-- A concrete always-failing raw allocator: every allocation request
returns the null address and every in-place request reports usable size
0. -/
def nullHeap : Heap where
  allocate := fun _ _ => 0
  reallocate := fun _ _ _ _ => 0
  reallocate_inplace := fun _ _ _ _ => 0
  usable_size := fun size _ => size

/-- A machine value that fits in a `w`-bit `uint` is unchanged by wrapping. -/
theorem wrap_eq_of_le_uintMax (w n : Nat) (hn : n ≤ uintMax w) : wrap w n = n := by
  have hpos : 0 < 2 ^ w := Nat.pos_pow_of_pos w (by decide)
  have : n < 2 ^ w := lt_of_le_of_lt hn (Nat.sub_lt hpos (by decide))
  exact Nat.mod_eq_of_lt this

/-- On multiplication overflow the requested size saturates to `uint::MAX`. -/
theorem saturated_mul_of_overflow (w a b : Nat) (hov : uintMax w < a * b) :
    saturated_mul w a b = uintMax w := by
  simp [saturated_mul, checked_mul, Nat.not_le.mpr hov]

/-- Without overflow the requested size is the exact product. -/
theorem saturated_mul_of_fit (w a b : Nat) (hfit : a * b ≤ uintMax w) :
    saturated_mul w a b = a * b := by
  simp [saturated_mul, checked_mul, hfit]

/-- Behaviour of the shared lazy-mode OOM check: it aborts exactly on a
null result, passes a non-null result through unchanged, and never
produces a null pointer for the caller. -/
theorem checkOom_spec (r : Nat × List HeapCall) :
    ((lazy.checkOom r).1 = none ↔ r.1 = 0) ∧
    (r.1 ≠ 0 → (lazy.checkOom r).1 = some r.1) ∧
    (lazy.checkOom r).1 ≠ some 0 := by
  unfold lazy.checkOom
  by_cases hr : r.1 = 0 <;> simp [hr]

/-- C1: for a positive element size and positive `len` whose byte product
overflows `uint`, plain-mode `alloc_array`, `realloc_array` and
`try_grow_inplace` hand the underlying allocator exactly `uint::MAX` as
the requested size, never a wrapped-around small value. -/
theorem C1_overflow_saturates (w : Nat) (h : Heap)
    (size align len ptr old_len : Nat)
    (hsize : 0 < size) (hlen : 0 < len) (hov : uintMax w < size * len) :
    (plain.alloc_array w h size align len).2 =
      [HeapCall.allocate (uintMax w) align] ∧
    (plain.realloc_array w h size align ptr old_len len).2 =
      [HeapCall.reallocate ptr (wrap w (size * old_len)) (uintMax w) align] ∧
    (plain.try_grow_inplace w h size align ptr old_len len).2 =
      [HeapCall.reallocate_inplace ptr (wrap w (size * old_len)) (uintMax w)
        align] := by
  have hs : size ≠ 0 := hsize.ne'
  refine ⟨?_, ?_, ?_⟩ <;>
    simp [plain.alloc_array, plain.realloc_array, plain.try_grow_inplace,
      saturated_mul_of_overflow w size len hov, hs]

/-- Witness for C1: a 4-bit word, element size 4, length 5, so that
`4 * 5 = 20` overflows `uintMax 4 = 15`. -/
theorem C1_overflow_saturates_witness :
    (0 < 4 ∧ 0 < 5 ∧ uintMax 4 < 4 * 5) ∧
    ((plain.alloc_array 4 testHeap 4 1 5).2 =
      [HeapCall.allocate (uintMax 4) 1] ∧
    (plain.realloc_array 4 testHeap 4 1 9 2 5).2 =
      [HeapCall.reallocate 9 (wrap 4 (4 * 2)) (uintMax 4) 1] ∧
    (plain.try_grow_inplace 4 testHeap 4 1 9 2 5).2 =
      [HeapCall.reallocate_inplace 9 (wrap 4 (4 * 2)) (uintMax 4) 1]) :=
  ⟨⟨by decide, by decide, by decide⟩,
    C1_overflow_saturates 4 testHeap 4 1 5 9 2 (by decide) (by decide)
      (by decide)⟩

/-- C2: for a zero element size, every plain-mode operation succeeds
trivially, returns or accepts the fixed non-null sentinel `EMPTY`, and
makes no call at all to the underlying raw allocator. -/
theorem C2_zst_trivial (w : Nat) (h : Heap) (align len old_len : Nat) :
    plain.alloc w h 0 align = (EMPTY, []) ∧
    plain.alloc_array w h 0 align len = (EMPTY, []) ∧
    plain.realloc_array w h 0 align EMPTY old_len len = (EMPTY, []) ∧
    plain.try_grow_inplace w h 0 align EMPTY old_len len =
      (RawResult.ok, []) ∧
    plain.try_shrink_inplace w h 0 align EMPTY old_len len =
      (RawResult.ok, []) ∧
    plain.dealloc w h 0 align EMPTY = [] ∧
    plain.dealloc_array w h 0 align EMPTY len = [] ∧
    EMPTY ≠ 0 :=
  ⟨rfl, rfl, rfl, rfl, rfl, rfl, rfl, by decide⟩

/-- C3: lazy-mode `alloc`, `alloc_array` and `realloc_array` abort the
process (modelled as `none`) exactly when the underlying plain-mode call
returns the null pointer, otherwise return that pointer unchanged; hence
they never hand a null pointer to their caller. -/
theorem C3_lazy_oom_aborts (w : Nat) (h : Heap)
    (size align ptr old_len len : Nat) :
    (((lazy.alloc w h size align).1 = none ↔
        (plain.alloc w h size align).1 = 0) ∧
      ((plain.alloc w h size align).1 ≠ 0 →
        (lazy.alloc w h size align).1 = some (plain.alloc w h size align).1) ∧
      (lazy.alloc w h size align).1 ≠ some 0) ∧
    (((lazy.alloc_array w h size align len).1 = none ↔
        (plain.alloc_array w h size align len).1 = 0) ∧
      ((plain.alloc_array w h size align len).1 ≠ 0 →
        (lazy.alloc_array w h size align len).1 =
          some (plain.alloc_array w h size align len).1) ∧
      (lazy.alloc_array w h size align len).1 ≠ some 0) ∧
    (((lazy.realloc_array w h size align ptr old_len len).1 = none ↔
        (plain.realloc_array w h size align ptr old_len len).1 = 0) ∧
      ((plain.realloc_array w h size align ptr old_len len).1 ≠ 0 →
        (lazy.realloc_array w h size align ptr old_len len).1 =
          some (plain.realloc_array w h size align ptr old_len len).1) ∧
      (lazy.realloc_array w h size align ptr old_len len).1 ≠ some 0) :=
  ⟨checkOom_spec _, checkOom_spec _, checkOom_spec _⟩

/-- Witness for C3: on the always-failing allocator the lazy allocation
aborts, and on the well-behaved allocator it returns the plain result. -/
theorem C3_lazy_oom_aborts_witness :
    ((lazy.alloc 8 nullHeap 4 1).1 = none ↔
      (plain.alloc 8 nullHeap 4 1).1 = 0) ∧
    (lazy.alloc 8 nullHeap 4 1).1 ≠ some 0 :=
  ⟨(C3_lazy_oom_aborts 8 nullHeap 4 1 2 3 5).1.1,
    (C3_lazy_oom_aborts 8 nullHeap 4 1 2 3 5).1.2.2⟩

/-- C4: for a positive element size and `0 < len ≤ old_len` on a validly
created block (its creating multiplication `size * old_len` did not
overflow, per the documented precondition), `try_shrink_inplace` returns
`ok` exactly when the usable size reported by the in-place reallocation
equals `usable_size (size * len) align` — the usable size of a fresh
allocation of the smaller byte size; and it makes exactly that one
in-place reallocation call. -/
theorem C4_shrink_exact_usable (w : Nat) (h : Heap)
    (size align ptr old_len len : Nat)
    (hsize : 0 < size) (hlen : 0 < len) (hle : len ≤ old_len)
    (hfit : size * old_len ≤ uintMax w) :
    ((plain.try_shrink_inplace w h size align ptr old_len len).1 =
        RawResult.ok ↔
      h.reallocate_inplace ptr (size * old_len) (size * len) align =
        h.usable_size (size * len) align) ∧
    (plain.try_shrink_inplace w h size align ptr old_len len).2 =
      [HeapCall.reallocate_inplace ptr (size * old_len) (size * len) align] := by
  have hs : size ≠ 0 := hsize.ne'
  have hfit2 : size * len ≤ uintMax w :=
    le_trans (Nat.mul_le_mul_left size hle) hfit
  have e1 : wrap w (size * old_len) = size * old_len :=
    wrap_eq_of_le_uintMax w _ hfit
  have e2 : wrap w (size * len) = size * len :=
    wrap_eq_of_le_uintMax w _ hfit2
  by_cases hc : h.reallocate_inplace ptr (size * old_len) (size * len) align =
      h.usable_size (size * len) align <;>
    simp [plain.try_shrink_inplace, hs, e1, e2, hc]

/-- Witness for C4: a 2-byte element shrunk from 5 to 3 elements on the
well-behaved allocator, whose in-place result equals the fresh usable
size. -/
theorem C4_shrink_exact_usable_witness :
    (0 < 2 ∧ 0 < 3 ∧ 3 ≤ 5 ∧ 2 * 5 ≤ uintMax 8) ∧
    (((plain.try_shrink_inplace 8 testHeap 2 1 7 5 3).1 = RawResult.ok ↔
      testHeap.reallocate_inplace 7 (2 * 5) (2 * 3) 1 =
        testHeap.usable_size (2 * 3) 1) ∧
    (plain.try_shrink_inplace 8 testHeap 2 1 7 5 3).2 =
      [HeapCall.reallocate_inplace 7 (2 * 5) (2 * 3) 1]) :=
  ⟨⟨by decide, by decide, by decide, by decide⟩,
    C4_shrink_exact_usable 8 testHeap 2 1 7 5 3 (by decide) (by decide)
      (by decide) (by decide)⟩

/-- C5: for a positive element size and `0 < old_len ≤ len` on a validly
created block, `try_grow_inplace` returns `ok` exactly when the usable
size reported by the in-place reallocation is at or above the saturated
target byte size `saturated_mul w size len`; and it makes exactly that
one in-place reallocation call. -/
theorem C5_grow_at_least (w : Nat) (h : Heap)
    (size align ptr old_len len : Nat)
    (hsize : 0 < size) (hold : 0 < old_len) (hle : old_len ≤ len)
    (hfit : size * old_len ≤ uintMax w) :
    ((plain.try_grow_inplace w h size align ptr old_len len).1 =
        RawResult.ok ↔
      saturated_mul w size len ≤
        h.reallocate_inplace ptr (size * old_len) (saturated_mul w size len)
          align) ∧
    (plain.try_grow_inplace w h size align ptr old_len len).2 =
      [HeapCall.reallocate_inplace ptr (size * old_len)
        (saturated_mul w size len) align] := by
  have hs : size ≠ 0 := hsize.ne'
  have e1 : wrap w (size * old_len) = size * old_len :=
    wrap_eq_of_le_uintMax w _ hfit
  by_cases hc : saturated_mul w size len ≤
      h.reallocate_inplace ptr (size * old_len) (saturated_mul w size len)
        align <;>
    simp [plain.try_grow_inplace, hs, e1, hc]

/-- Witness for C5: a 2-byte element grown from 3 to 5 elements on the
well-behaved allocator, which grants the full saturated target. -/
theorem C5_grow_at_least_witness :
    (0 < 2 ∧ 0 < 3 ∧ 3 ≤ 5 ∧ 2 * 3 ≤ uintMax 8) ∧
    (((plain.try_grow_inplace 8 testHeap 2 1 7 3 5).1 = RawResult.ok ↔
      saturated_mul 8 2 5 ≤
        testHeap.reallocate_inplace 7 (2 * 3) (saturated_mul 8 2 5) 1) ∧
    (plain.try_grow_inplace 8 testHeap 2 1 7 3 5).2 =
      [HeapCall.reallocate_inplace 7 (2 * 3) (saturated_mul 8 2 5) 1]) :=
  ⟨⟨by decide, by decide, by decide, by decide⟩,
    C5_grow_at_least 8 testHeap 2 1 7 3 5 (by decide) (by decide)
      (by decide) (by decide)⟩

/-- C6: for a positive element size, every failure of a plain-mode
operation is observable in its return value and determined by the raw
allocator's response: the three pointer-returning operations return null
exactly when the allocator returned null for the request they made, and
the two in-place operations return `err` exactly when the reported usable
size misses their success condition.  No abort path exists: each
operation is a total function into its ordinary return type (unlike the
lazy mode, whose result is an `Option` with `none` for the abort). -/
theorem C6_failures_observable (w : Nat) (h : Heap)
    (size align ptr old_len len : Nat) (hsize : 0 < size) :
    ((plain.alloc w h size align).1 = 0 ↔ h.allocate size align = 0) ∧
    ((plain.alloc_array w h size align len).1 = 0 ↔
      h.allocate (saturated_mul w size len) align = 0) ∧
    ((plain.realloc_array w h size align ptr old_len len).1 = 0 ↔
      h.reallocate ptr (wrap w (size * old_len)) (saturated_mul w size len)
        align = 0) ∧
    ((plain.try_grow_inplace w h size align ptr old_len len).1 =
        RawResult.err ↔
      h.reallocate_inplace ptr (wrap w (size * old_len))
          (saturated_mul w size len) align <
        saturated_mul w size len) ∧
    ((plain.try_shrink_inplace w h size align ptr old_len len).1 =
        RawResult.err ↔
      h.reallocate_inplace ptr (wrap w (size * old_len))
          (wrap w (size * len)) align ≠
        h.usable_size (wrap w (size * len)) align) := by
  have hs : size ≠ 0 := hsize.ne'
  refine ⟨by simp [plain.alloc, hs], by simp [plain.alloc_array, hs],
    by simp [plain.realloc_array, hs], ?_, ?_⟩
  · by_cases hc : saturated_mul w size len ≤
        h.reallocate_inplace ptr (wrap w (size * old_len))
          (saturated_mul w size len) align
    · simp [plain.try_grow_inplace, hs, hc, Nat.not_lt.mpr hc]
    · simp [plain.try_grow_inplace, hs, hc, Nat.lt_of_not_le hc]
  · by_cases hc : h.reallocate_inplace ptr (wrap w (size * old_len))
        (wrap w (size * len)) align =
        h.usable_size (wrap w (size * len)) align <;>
      simp [plain.try_shrink_inplace, hs, hc]

/-- Witness for C6: the always-failing allocator, whose null responses
and too-small usable sizes are all visible in the returned values. -/
theorem C6_failures_observable_witness :
    (0 < 2 : Prop) ∧
    (((plain.alloc 8 nullHeap 2 1).1 = 0 ↔ nullHeap.allocate 2 1 = 0) ∧
    ((plain.alloc_array 8 nullHeap 2 1 3).1 = 0 ↔
      nullHeap.allocate (saturated_mul 8 2 3) 1 = 0) ∧
    ((plain.realloc_array 8 nullHeap 2 1 7 3 5).1 = 0 ↔
      nullHeap.reallocate 7 (wrap 8 (2 * 3)) (saturated_mul 8 2 5) 1 = 0) ∧
    ((plain.try_grow_inplace 8 nullHeap 2 1 7 3 5).1 = RawResult.err ↔
      nullHeap.reallocate_inplace 7 (wrap 8 (2 * 3)) (saturated_mul 8 2 5) 1 <
        saturated_mul 8 2 5) ∧
    ((plain.try_shrink_inplace 8 nullHeap 2 1 7 5 3).1 = RawResult.err ↔
      nullHeap.reallocate_inplace 7 (wrap 8 (2 * 5)) (wrap 8 (2 * 3)) 1 ≠
        nullHeap.usable_size (wrap 8 (2 * 3)) 1)) := by
  refine ⟨by decide, ?_, ?_, ?_, ?_, ?_⟩
  · exact (C6_failures_observable 8 nullHeap 2 1 7 3 5 (by decide)).1
  · exact (C6_failures_observable 8 nullHeap 2 1 7 3 5 (by decide)).2.1
  · exact (C6_failures_observable 8 nullHeap 2 1 7 3 5 (by decide)).2.2.1
  · exact (C6_failures_observable 8 nullHeap 2 1 7 3 5 (by decide)).2.2.2.1
  · exact (C6_failures_observable 8 nullHeap 2 1 7 5 3 (by decide)).2.2.2.2

/-- C7: lazy-mode `try_grow_inplace` and `try_shrink_inplace` are pure
delegations: on every input they return exactly the plain-mode result —
the same success or failure value and the same allocator calls, with no
added abort path. -/
theorem C7_lazy_delegates_inplace (w : Nat) (h : Heap)
    (size align ptr old_len len : Nat) :
    lazy.try_grow_inplace w h size align ptr old_len len =
      plain.try_grow_inplace w h size align ptr old_len len ∧
    lazy.try_shrink_inplace w h size align ptr old_len len =
      plain.try_shrink_inplace w h size align ptr old_len len :=
  ⟨rfl, rfl⟩

/-- C8: every plain-mode operation is deterministic and stateless: two
runs with the same element size and alignment, the same arguments, and
the same raw-allocator responses at the points actually queried produce
identical results (value and calls alike); nothing beyond those responses
influences any outcome. -/
theorem C8_deterministic_stateless (w : Nat) (h1 h2 : Heap)
    (size align ptr old_len len : Nat)
    (ha : h1.allocate size align = h2.allocate size align)
    (hb : h1.allocate (saturated_mul w size len) align =
      h2.allocate (saturated_mul w size len) align)
    (hc : h1.reallocate ptr (wrap w (size * old_len))
        (saturated_mul w size len) align =
      h2.reallocate ptr (wrap w (size * old_len))
        (saturated_mul w size len) align)
    (hd : h1.reallocate_inplace ptr (wrap w (size * old_len))
        (saturated_mul w size len) align =
      h2.reallocate_inplace ptr (wrap w (size * old_len))
        (saturated_mul w size len) align)
    (he : h1.reallocate_inplace ptr (wrap w (size * old_len))
        (wrap w (size * len)) align =
      h2.reallocate_inplace ptr (wrap w (size * old_len))
        (wrap w (size * len)) align)
    (hf : h1.usable_size (wrap w (size * len)) align =
      h2.usable_size (wrap w (size * len)) align) :
    plain.alloc w h1 size align = plain.alloc w h2 size align ∧
    plain.alloc_array w h1 size align len =
      plain.alloc_array w h2 size align len ∧
    plain.realloc_array w h1 size align ptr old_len len =
      plain.realloc_array w h2 size align ptr old_len len ∧
    plain.try_grow_inplace w h1 size align ptr old_len len =
      plain.try_grow_inplace w h2 size align ptr old_len len ∧
    plain.try_shrink_inplace w h1 size align ptr old_len len =
      plain.try_shrink_inplace w h2 size align ptr old_len len ∧
    plain.dealloc w h1 size align ptr = plain.dealloc w h2 size align ptr ∧
    plain.dealloc_array w h1 size align ptr len =
      plain.dealloc_array w h2 size align ptr len := by
  refine ⟨?_, ?_, ?_, ?_, ?_, rfl, rfl⟩ <;>
    simp [plain.alloc, plain.alloc_array, plain.realloc_array,
      plain.try_grow_inplace, plain.try_shrink_inplace, ha, hb, hc, hd, he, hf]

/-- Witness for C8: two copies of the same concrete allocator trivially
agree on every queried response, so the runs coincide. -/
theorem C8_deterministic_stateless_witness :
    plain.alloc 8 testHeap 2 1 = plain.alloc 8 testHeap 2 1 ∧
    plain.alloc_array 8 testHeap 2 1 5 = plain.alloc_array 8 testHeap 2 1 5 ∧
    plain.realloc_array 8 testHeap 2 1 7 3 5 =
      plain.realloc_array 8 testHeap 2 1 7 3 5 ∧
    plain.try_grow_inplace 8 testHeap 2 1 7 3 5 =
      plain.try_grow_inplace 8 testHeap 2 1 7 3 5 ∧
    plain.try_shrink_inplace 8 testHeap 2 1 7 3 5 =
      plain.try_shrink_inplace 8 testHeap 2 1 7 3 5 ∧
    plain.dealloc 8 testHeap 2 1 7 = plain.dealloc 8 testHeap 2 1 7 ∧
    plain.dealloc_array 8 testHeap 2 1 7 5 =
      plain.dealloc_array 8 testHeap 2 1 7 5 :=
  C8_deterministic_stateless 8 testHeap testHeap 2 1 7 3 5 rfl rfl rfl rfl
    rfl rfl

/-- C9: under the documented handle-validity precondition — the creating
call checked `size * old_len` against overflow, so it fits in `uint` —
the unchecked multiplications in `realloc_array`, `try_grow_inplace`,
`try_shrink_inplace` (with `len ≤ old_len`) and `dealloc_array` do not
wrap, so the byte sizes handed to the raw allocator are the exact
products. -/
theorem C9_unchecked_muls_exact (w : Nat) (h : Heap)
    (size align ptr old_len len new_len : Nat)
    (hsize : 0 < size) (hfit : size * old_len ≤ uintMax w)
    (hle : len ≤ old_len) :
    (plain.realloc_array w h size align ptr old_len new_len).2 =
      [HeapCall.reallocate ptr (size * old_len)
        (saturated_mul w size new_len) align] ∧
    (plain.try_grow_inplace w h size align ptr old_len new_len).2 =
      [HeapCall.reallocate_inplace ptr (size * old_len)
        (saturated_mul w size new_len) align] ∧
    (plain.try_shrink_inplace w h size align ptr old_len len).2 =
      [HeapCall.reallocate_inplace ptr (size * old_len) (size * len) align] ∧
    plain.dealloc_array w h size align ptr old_len =
      [HeapCall.deallocate ptr (size * old_len) align] := by
  have hs : size ≠ 0 := hsize.ne'
  have hfit2 : size * len ≤ uintMax w :=
    le_trans (Nat.mul_le_mul_left size hle) hfit
  have e1 : wrap w (size * old_len) = size * old_len :=
    wrap_eq_of_le_uintMax w _ hfit
  have e2 : wrap w (size * len) = size * len :=
    wrap_eq_of_le_uintMax w _ hfit2
  refine ⟨?_, ?_, ?_, ?_⟩ <;>
    simp [plain.realloc_array, plain.try_grow_inplace,
      plain.try_shrink_inplace, plain.dealloc_array, hs, e1, e2]

/-- Witness for C9: a 2-byte element with a valid 5-element block shrunk
to 3 or resized to 6 on the well-behaved allocator. -/
theorem C9_unchecked_muls_exact_witness :
    (0 < 2 ∧ 2 * 5 ≤ uintMax 8 ∧ 3 ≤ 5) ∧
    ((plain.realloc_array 8 testHeap 2 1 7 5 6).2 =
      [HeapCall.reallocate 7 (2 * 5) (saturated_mul 8 2 6) 1] ∧
    (plain.try_grow_inplace 8 testHeap 2 1 7 5 6).2 =
      [HeapCall.reallocate_inplace 7 (2 * 5) (saturated_mul 8 2 6) 1] ∧
    (plain.try_shrink_inplace 8 testHeap 2 1 7 5 3).2 =
      [HeapCall.reallocate_inplace 7 (2 * 5) (2 * 3) 1] ∧
    plain.dealloc_array 8 testHeap 2 1 7 5 =
      [HeapCall.deallocate 7 (2 * 5) 1]) :=
  ⟨⟨by decide, by decide, by decide⟩,
    C9_unchecked_muls_exact 8 testHeap 2 1 7 5 3 6 (by decide) (by decide)
      (by decide)⟩

/-- C10: for a zero element size and positive `len`, lazy-mode `alloc`
and `alloc_array` never abort: the plain-mode call returns the fixed
sentinel `EMPTY`, which is non-null, so the null-check guarding the OOM
abort never fires and the result is `some EMPTY` with no allocator
calls. -/
theorem C10_zst_lazy_never_aborts (w : Nat) (h : Heap) (align len : Nat)
    (hlen : 0 < len) :
    lazy.alloc w h 0 align = (some EMPTY, []) ∧
    lazy.alloc_array w h 0 align len = (some EMPTY, []) ∧
    EMPTY ≠ 0 :=
  ⟨rfl, rfl, by decide⟩

/-- Witness for C10 at word width 8 and length 3. -/
theorem C10_zst_lazy_never_aborts_witness :
    (0 < 3 : Prop) ∧
    (lazy.alloc 8 testHeap 0 1 = (some EMPTY, []) ∧
    lazy.alloc_array 8 testHeap 0 1 3 = (some EMPTY, []) ∧
    EMPTY ≠ 0) :=
  ⟨by decide, C10_zst_lazy_never_aborts 8 testHeap 1 3 (by decide)⟩

end Raw
